import Mathlib

set_option linter.unusedVariables false

/-! Verification of the Tibit ONU adapter core (tibit_onu.py): the EOAM/DPoE
TLV codec, the flow-rule translator, the message-exchange engine and the
onboarding path, embedded as executable Lean definitions, with theorems
settling the specification claims. -/

namespace TibitOnu

/-! ## Byte-buffer reads

Frame bodies are byte lists. The struct.unpack_from calls of the source are
modelled as bounds-checked big-endian reads that return none exactly when
unpack_from would raise struct.error (buffer too short for the request). -/

def readU8 (buf : List Nat) (off : Nat) : Option Nat := buf[off]?

def readU16 (buf : List Nat) (off : Nat) : Option Nat :=
  match buf[off]?, buf[off + 1]? with
  | some a, some b => some (a * 0x100 + b)
  | _, _ => none

def readU32 (buf : List Nat) (off : Nat) : Option Nat :=
  match readU16 buf off, readU16 buf (off + 2) with
  | some a, some b => some (a * 0x10000 + b)
  | _, _ => none

def readU64 (buf : List Nat) (off : Nat) : Option Nat :=
  match readU32 buf off, readU32 buf (off + 4) with
  | some a, some b => some (a * 0x100000000 + b)
  | _, _ => none

def readBytes (buf : List Nat) (off n : Nat) : Option (List Nat) :=
  if off + n ≤ buf.length then some ((buf.drop off).take n) else none

/-! ## Frames and classification (_voltha_get_oam_msg_type) -/

/-- An inbound frame as seen by the adapter: the scapy payload opcode and the
optional raw body bytes (payload.body.load); body = none models a payload
without a body attribute (the hasattr check in the source). -/
structure Frame where
  opcode : Nat
  body : Option (List Nat)
deriving DecidableEq, Repr

/-- The classification results of RxedOamMsgTypeEnum. -/
inductive RxedOamMsgType where
  | Unknown
  | Info
  | EventNotification
  | GetResponse
  | SetResponse
  | FileTransfer
  | OMCIMessage
deriving DecidableEq, Repr

def ITU_OUI : Nat := 0x0019A7
def CABLELABS_OUI : Nat := 0x001000
def TIBIT_OUI : Nat := 0x2AEA15

/-- _voltha_get_oam_msg_type: classify an inbound frame. Returns none when a
struct.unpack_from in the source would raise (body too short for the OUI or
the DPoE sub-opcode read). -/
def getOamMsgType (frame : Frame) : Option RxedOamMsgType :=
  match frame.body with
  | none => some .Unknown
  | some loadstr =>
    if frame.opcode = 0xFE then
      match readU8 loadstr 0, readU16 loadstr 1 with
      | some oui_hi, some oui_lo =>
        let oui := oui_hi * 0x10000 + oui_lo
        if oui = ITU_OUI then some .OMCIMessage
        else if oui = CABLELABS_OUI ∨ oui = TIBIT_OUI then
          match readU8 loadstr 3 with
          | some dpoeOpcode =>
            if dpoeOpcode = 0x02 then some .GetResponse
            else if dpoeOpcode = 0x04 then some .SetResponse
            else if dpoeOpcode = 0x09 then some .FileTransfer
            else some .Unknown
          | none => none
        else some .Unknown
      | _, _ => none
    else if frame.opcode = 0x01 then some .EventNotification
    else some .Unknown

/-- C2: classification of every inbound frame with a parseable body:
opcode 0xFE with the ITU OUI gives OMCIMessage for all bodies; with the
Cablelabs or Tibit OUI the DPoE sub-opcode selects GetResponse (0x02),
SetResponse (0x04) or FileTransferAck (0x09) and anything else is Unknown;
opcode 0x01 gives EventNotification; any other opcode, any unrecognized OUI
under 0xFE, and a frame without a body, give Unknown. -/
theorem oam_msg_type_classification :
    (∀ rest : List Nat,
       getOamMsgType ⟨0xFE, some (0x00 :: 0x19 :: 0xA7 :: rest)⟩ = some .OMCIMessage)
  ∧ (∀ (o1 o2 o3 sub : Nat) (rest : List Nat),
       ([o1, o2, o3] = [0x00, 0x10, 0x00] ∨ [o1, o2, o3] = [0x2A, 0xEA, 0x15]) →
       getOamMsgType ⟨0xFE, some (o1 :: o2 :: o3 :: sub :: rest)⟩ =
         some (if sub = 0x02 then .GetResponse
               else if sub = 0x04 then .SetResponse
               else if sub = 0x09 then .FileTransfer
               else .Unknown))
  ∧ (∀ body : List Nat, getOamMsgType ⟨0x01, some body⟩ = some .EventNotification)
  ∧ (∀ (opcode : Nat) (body : Option (List Nat)), opcode ≠ 0xFE → opcode ≠ 0x01 →
       getOamMsgType ⟨opcode, body⟩ = some .Unknown)
  ∧ (∀ (b0 b1 b2 : Nat) (rest : List Nat),
       b0 * 0x10000 + (b1 * 0x100 + b2) ≠ ITU_OUI →
       b0 * 0x10000 + (b1 * 0x100 + b2) ≠ CABLELABS_OUI →
       b0 * 0x10000 + (b1 * 0x100 + b2) ≠ TIBIT_OUI →
       getOamMsgType ⟨0xFE, some (b0 :: b1 :: b2 :: rest)⟩ = some .Unknown)
  ∧ (∀ opcode : Nat, getOamMsgType ⟨opcode, none⟩ = some .Unknown) := by
  refine ⟨?_, ?_, ?_, ?_, ?_, ?_⟩
  · intro rest
    simp [getOamMsgType, readU8, readU16, ITU_OUI]
  · intro o1 o2 o3 sub rest h
    rcases h with h | h <;>
      · injection h with h1 h
        injection h with h2 h
        injection h with h3 h
        subst h1; subst h2; subst h3
        simp only [getOamMsgType, readU8, readU16, ITU_OUI, CABLELABS_OUI, TIBIT_OUI]
        norm_num
        split_ifs <;> rfl
  · intro body
    simp [getOamMsgType]
  · intro opcode body h1 h2
    cases body <;> simp [getOamMsgType, h1, h2]
  · intro b0 b1 b2 rest h1 h2 h3
    simp [getOamMsgType, readU8, readU16, h1, h2, h3]
  · intro opcode
    simp [getOamMsgType]

/-- Witness for the classification theorem at concrete frames. -/
theorem oam_msg_type_classification_witness :
    getOamMsgType ⟨0xFE, some [0x00, 0x19, 0xA7, 0x55]⟩ = some .OMCIMessage
  ∧ getOamMsgType ⟨0xFE, some [0x2A, 0xEA, 0x15, 0x04]⟩ = some .SetResponse
  ∧ getOamMsgType ⟨0xFE, some [0x00, 0x10, 0x00, 0x02]⟩ = some .GetResponse
  ∧ getOamMsgType ⟨0xFE, some [0x2A, 0xEA, 0x15, 0x09]⟩ = some .FileTransfer
  ∧ getOamMsgType ⟨0xFE, some [0x2A, 0xEA, 0x15, 0x07]⟩ = some .Unknown
  ∧ getOamMsgType ⟨0x01, some []⟩ = some .EventNotification
  ∧ getOamMsgType ⟨0x03, some []⟩ = some .Unknown
  ∧ getOamMsgType ⟨0xFE, some [0x12, 0x34, 0x56]⟩ = some .Unknown
  ∧ getOamMsgType ⟨0xFE, none⟩ = some .Unknown := by
  refine ⟨oam_msg_type_classification.1 [0x55],
          ?_, ?_, ?_, ?_,
          oam_msg_type_classification.2.2.1 [],
          oam_msg_type_classification.2.2.2.1 0x03 (some []) (by decide) (by decide),
          oam_msg_type_classification.2.2.2.2.1 0x12 0x34 0x56 [] (by decide) (by decide)
            (by decide),
          oam_msg_type_classification.2.2.2.2.2 0xFE⟩
  · exact oam_msg_type_classification.2.1 0x2A 0xEA 0x15 0x04 [] (Or.inr rfl)
  · exact oam_msg_type_classification.2.1 0x00 0x10 0x00 0x02 [] (Or.inl rfl)
  · exact oam_msg_type_classification.2.1 0x2A 0xEA 0x15 0x09 [] (Or.inr rfl)
  · exact oam_msg_type_classification.2.1 0x2A 0xEA 0x15 0x07 [] (Or.inr rfl)

/-! ## The Set-Response attribute walk (_voltha_check_set_resp_attrs) -/

/-- The while loop of _voltha_check_set_resp_attrs. State threaded through the
iterations: bytesRead, and the branch/leaf/length variables as they stand at
the top of the loop (re-read each iteration in the source, but their previous
values are what the function returns when the loop condition fails). The
result carries, beyond the source's (retVal, branch, leaf, length) tuple, the
final bytesRead, so that theorems can speak about where the walk stopped;
none models a struct.error raised by a read past the end of the buffer. -/
def checkSetRespAttrsGo (loadstr : List Nat) (bytesRead : Nat)
    (branch leaf length : Nat) : Option (Bool × Nat × Nat × Nat × Nat) :=
  if h : bytesRead ≤ loadstr.length then
    match readU8 loadstr bytesRead, readU16 loadstr (bytesRead + 1) with
    | some br, some lf =>
      if br ≠ 0 then
        match readU8 loadstr (bytesRead + 3) with
        | some ln =>
          if 0x80 ≤ ln then
            if 0x80 < ln then some (false, br, lf, ln, bytesRead + 4)
            else checkSetRespAttrsGo loadstr (bytesRead + 4) br lf ln
          else checkSetRespAttrsGo loadstr (bytesRead + 4 + ln) br lf ln
        | none => none
      else some (true, br, lf, length, bytesRead)
    | _, _ => none
  else some (true, branch, leaf, length, bytesRead)
termination_by loadstr.length + 1 - bytesRead
decreasing_by all_goals omega

/-- _voltha_check_set_resp_attrs: walk the attribute records from startOfTlvs;
returns (retVal, branch, leaf, length); retVal starts True and is only set
False on a response code strictly above 0x80. -/
def checkSetRespAttrs (loadstr : List Nat) (startOfTlvs : Nat) :
    Option (Bool × Nat × Nat × Nat) :=
  match checkSetRespAttrsGo loadstr startOfTlvs 0 0 0 with
  | none => none
  | some (rv, br, lf, ln, _) => some (rv, br, lf, ln)

/-- C3: in the Set-Response attribute walk, a record with length byte exactly
0x80 is recoverable: the walk continues at the next record without consuming
value bytes; a length byte in (0x80, 0xFF] aborts the walk with success=false
reporting the triggering branch, leaf and code; a length byte below 0x80
skips exactly that many value bytes and continues. -/
theorem set_resp_attr_walk_length_cases :
    (∀ (buf : List Nat) (p b0 l0 n0 br lf : Nat),
       p ≤ buf.length → readU8 buf p = some br → br ≠ 0 →
       readU16 buf (p + 1) = some lf → readU8 buf (p + 3) = some 0x80 →
       checkSetRespAttrsGo buf p b0 l0 n0 = checkSetRespAttrsGo buf (p + 4) br lf 0x80)
  ∧ (∀ (buf : List Nat) (p b0 l0 n0 br lf ln : Nat),
       p ≤ buf.length → readU8 buf p = some br → br ≠ 0 →
       readU16 buf (p + 1) = some lf → readU8 buf (p + 3) = some ln →
       0x80 < ln → ln ≤ 0xFF →
       checkSetRespAttrsGo buf p b0 l0 n0 = some (false, br, lf, ln, p + 4))
  ∧ (∀ (buf : List Nat) (p b0 l0 n0 br lf ln : Nat),
       p ≤ buf.length → readU8 buf p = some br → br ≠ 0 →
       readU16 buf (p + 1) = some lf → readU8 buf (p + 3) = some ln →
       ln < 0x80 →
       checkSetRespAttrsGo buf p b0 l0 n0 = checkSetRespAttrsGo buf (p + 4 + ln) br lf ln) := by
  refine ⟨?_, ?_, ?_⟩
  · intro buf p b0 l0 n0 br lf hp h1 hbr h2 h3
    rw [checkSetRespAttrsGo]
    simp [hp, h1, h2, h3, hbr]
  · intro buf p b0 l0 n0 br lf ln hp h1 hbr h2 h3 hgt hle
    have hge : 0x80 ≤ ln := le_of_lt hgt
    rw [checkSetRespAttrsGo]
    simp [hp, h1, h2, h3, hbr, hge, hgt]
  · intro buf p b0 l0 n0 br lf ln hp h1 hbr h2 h3 hlt
    have hnge : ¬ 0x80 ≤ ln := by omega
    rw [checkSetRespAttrsGo]
    simp [hp, h1, h2, h3, hbr, hnge]

/-- Witness for the length-case theorem at concrete records. -/
theorem set_resp_attr_walk_length_cases_witness :
    checkSetRespAttrsGo [5, 0, 7, 0x80, 0, 0, 0] 0 0 0 0 =
      checkSetRespAttrsGo [5, 0, 7, 0x80, 0, 0, 0] 4 5 7 0x80
  ∧ checkSetRespAttrsGo [5, 0, 7, 0x86] 0 0 0 0 = some (false, 5, 7, 0x86, 4)
  ∧ checkSetRespAttrsGo [5, 0, 7, 2, 9, 9, 0, 0, 0] 0 0 0 0 =
      checkSetRespAttrsGo [5, 0, 7, 2, 9, 9, 0, 0, 0] 6 5 7 2 := by
  refine ⟨?_, ?_, ?_⟩
  · exact set_resp_attr_walk_length_cases.1 [5, 0, 7, 0x80, 0, 0, 0] 0 0 0 0 5 7
      (by decide) (by decide) (by decide) (by decide) (by decide)
  · exact set_resp_attr_walk_length_cases.2.1 [5, 0, 7, 0x86] 0 0 0 0 5 7 0x86
      (by decide) (by decide) (by decide) (by decide) (by decide) (by decide) (by decide)
  · exact set_resp_attr_walk_length_cases.2.2 [5, 0, 7, 2, 9, 9, 0, 0, 0] 0 0 0 0 5 7 2
      (by decide) (by decide) (by decide) (by decide) (by decide) (by decide)

/-! ## The Get-Value attribute walk (_voltha_handle_get_value) -/

/-- A decoded attribute value: the source's value variable holds either an
unsigned integer (lengths 1/2/4/8) or a raw byte string. -/
inductive TlvValue where
  | int (v : Nat)
  | bytes (s : List Nat)
deriving DecidableEq, Repr

/-- The typed value read of _voltha_handle_get_value for one record: lengths
1, 2, 4, 8 read an unsigned big-endian integer of that width; a length of
0x80 or more is a response code (logged, value bytes are not consumed:
effective length 0, value left unchanged); any other length reads a raw byte
string, with length 0 meaning 128 bytes. Returns the new value together with
the effective length added to bytesRead; none models struct.error. -/
def readTlvValue (loadstr : List Nat) (off ln : Nat) (value : TlvValue) :
    Option (TlvValue × Nat) :=
  if ln = 1 then (readU8 loadstr off).map fun x => (.int x, 1)
  else if ln = 2 then (readU16 loadstr off).map fun x => (.int x, 2)
  else if ln = 4 then (readU32 loadstr off).map fun x => (.int x, 4)
  else if ln = 8 then (readU64 loadstr off).map fun x => (.int x, 8)
  else if 0x80 ≤ ln then some (value, 0)
  else
    (readBytes loadstr off (if ln = 0 then 128 else ln)).map
      fun s => (.bytes s, if ln = 0 then 128 else ln)

/-- The while loop of _voltha_handle_get_value. Threaded state: bytesRead,
retVal, and the value/branch/leaf variables as they stand at the top of the
loop. Records whose branch is the reserved continuation marker 0xD6 are
skipped; the walk breaks on branch 0, or on the first record matching the
(queryBranch, queryLeaf) pair, where a fully zero query is a wildcard. -/
def handleGetValueGo (loadstr : List Nat) (queryBranch queryLeaf : Nat)
    (bytesRead : Nat) (retVal : Bool) (value : TlvValue) (branch leaf : Nat) :
    Option (Bool × Nat × TlvValue × Nat × Nat) :=
  if h : bytesRead ≤ loadstr.length then
    match readU8 loadstr bytesRead, readU16 loadstr (bytesRead + 1) with
    | some br, some lf =>
      if br ≠ 0 then
        match readU8 loadstr (bytesRead + 3) with
        | some ln =>
          match readTlvValue loadstr (bytesRead + 4) ln value with
          | some (v, effLen) =>
            if br ≠ 0xD6 then
              if (queryBranch = 0 ∧ queryLeaf = 0) ∨
                 (queryBranch = br ∧ queryLeaf = lf) then
                some ((if 0 < effLen then true else retVal),
                      bytesRead + 4 + effLen, v, br, lf)
              else
                handleGetValueGo loadstr queryBranch queryLeaf
                  (bytesRead + 4 + effLen) retVal v br lf
            else
              handleGetValueGo loadstr queryBranch queryLeaf
                (bytesRead + 4 + effLen) retVal v br lf
          | none => none
        | none => none
      else some (retVal, bytesRead, value, br, lf)
    | _, _ => none
  else some (retVal, bytesRead, value, branch, leaf)
termination_by loadstr.length + 1 - bytesRead
decreasing_by all_goals omega

/-- _voltha_handle_get_value: run the walk from startOfTlvs and apply the
final fixup of the source (a False retVal resets the value to the integer 0).
Returns (retVal, bytesRead, value, branch, leaf). -/
def handleGetValue (loadstr : List Nat) (startOfTlvs queryBranch queryLeaf : Nat) :
    Option (Bool × Nat × TlvValue × Nat × Nat) :=
  match handleGetValueGo loadstr queryBranch queryLeaf startOfTlvs false (.int 0) 0 0 with
  | none => none
  | some (rv, fin, v, br, lf) => some (rv, fin, if rv then v else .int 0, br, lf)

/-- Every run of the Set-Response walk ends in one of three ways: a decode
error from a truncated record, a break at a branch-0 end marker or at a hard
response code, or a normal loop exit with bytesRead beyond the buffer. -/
theorem checkSetRespAttrsGo_trichotomy (buf : List Nat) (p b l n : Nat) :
    checkSetRespAttrsGo buf p b l n = none
  ∨ ∃ rv br lf ln fin, checkSetRespAttrsGo buf p b l n = some (rv, br, lf, ln, fin) ∧
      (br = 0 ∨ (rv = false ∧ 0x80 < ln) ∨ buf.length < fin) := by
  induction p, b, l, n using checkSetRespAttrsGo.induct buf with
  | case1 p b l n hp br lf h1 h2 hbr ln h3 hge hgt =>
    right
    refine ⟨false, br, lf, ln, p + 4, ?_, Or.inr (Or.inl ⟨rfl, hgt⟩)⟩
    rw [checkSetRespAttrsGo]
    simp [hp, h1, h2, h3, hbr, hge, hgt]
  | case2 p b l n hp br lf h1 h2 hbr ln h3 hge hngt ih =>
    have hstep : checkSetRespAttrsGo buf p b l n = checkSetRespAttrsGo buf (p + 4) br lf ln := by
      rw [checkSetRespAttrsGo]
      simp [hp, h1, h2, h3, hbr, hge, hngt]
    rw [hstep]
    exact ih
  | case3 p b l n hp br lf h1 h2 hbr ln h3 hnge ih =>
    have hstep : checkSetRespAttrsGo buf p b l n =
        checkSetRespAttrsGo buf (p + 4 + ln) br lf ln := by
      rw [checkSetRespAttrsGo]
      simp [hp, h1, h2, h3, hbr, hnge]
    rw [hstep]
    exact ih
  | case4 p b l n hp br lf h1 h2 hbr h3 =>
    left
    rw [checkSetRespAttrsGo]
    simp [hp, h1, h2, h3, hbr]
  | case5 p b l n hp br lf h1 h2 hbr =>
    right
    have hbr0 : br = 0 := by simpa using hbr
    refine ⟨true, br, lf, n, p, ?_, Or.inl hbr0⟩
    rw [checkSetRespAttrsGo]
    simp [hp, h1, h2, hbr0]
  | case6 p b l n hp hnone =>
    left
    rw [checkSetRespAttrsGo]
    simp [hp]
  | case7 p b l n hp =>
    right
    refine ⟨true, b, l, n, p, ?_, Or.inr (Or.inr (by omega))⟩
    rw [checkSetRespAttrsGo]
    simp [hp]

/-- Every run of the Get-Value walk ends in one of four ways: a decode error
from a truncated record, a break at a branch-0 end marker, a break at the
first non-reserved record matching the query (or any record for the zero
wildcard query), or a normal loop exit with bytesRead beyond the buffer. -/
theorem handleGetValueGo_trichotomy (buf : List Nat) (qB qL p : Nat) (rv : Bool)
    (v : TlvValue) (b l : Nat) :
    handleGetValueGo buf qB qL p rv v b l = none
  ∨ ∃ rv2 fin v2 br lf, handleGetValueGo buf qB qL p rv v b l = some (rv2, fin, v2, br, lf) ∧
      (br = 0 ∨ buf.length < fin ∨
        (br ≠ 0xD6 ∧ ((qB = 0 ∧ qL = 0) ∨ (qB = br ∧ qL = lf)))) := by
  induction p, rv, v, b, l using handleGetValueGo.induct buf qB qL with
  | case1 p rv v b l hp br lf h2 h1 hbr ln h3 v2 effLen hv hd6 hmatch =>
    right
    refine ⟨(if 0 < effLen then true else rv), p + 4 + effLen, v2, br, lf, ?_,
      Or.inr (Or.inr ⟨hd6, hmatch⟩)⟩
    rw [handleGetValueGo]
    simp [hp, h1, h2, h3, hbr, hv, hd6, hmatch]
  | case2 p rv v b l hp br lf h2 h1 hbr ln h3 v2 effLen hv hd6 hmatch ih =>
    have hstep : handleGetValueGo buf qB qL p rv v b l =
        handleGetValueGo buf qB qL (p + 4 + effLen) rv v2 br lf := by
      rw [handleGetValueGo]
      simp [hp, h1, h2, h3, hbr, hv, hd6, hmatch]
    rw [hstep]
    exact ih
  | case3 p rv v b l hp br lf h2 h1 hbr ln h3 v2 effLen hv hd6 ih =>
    have hstep : handleGetValueGo buf qB qL p rv v b l =
        handleGetValueGo buf qB qL (p + 4 + effLen) rv v2 br lf := by
      rw [handleGetValueGo]
      simp [hp, h1, h2, h3, hbr, hv, hd6]
    rw [hstep]
    exact ih
  | case4 p rv v b l hp br lf h2 h1 hbr ln h3 hv =>
    left
    rw [handleGetValueGo]
    simp [hp, h1, h2, h3, hbr, hv]
  | case5 p rv v b l hp br lf h2 h1 hbr h3 =>
    left
    rw [handleGetValueGo]
    simp [hp, h1, h2, h3, hbr]
  | case6 p rv v b l hp br lf h2 h1 hbr =>
    right
    have hbr0 : br = 0 := by simpa using hbr
    refine ⟨rv, p, v, br, lf, ?_, Or.inl hbr0⟩
    rw [handleGetValueGo]
    simp [hp, h1, h2, hbr0]
  | case7 p rv v b l hp hnone =>
    left
    rw [handleGetValueGo]
    simp [hp]
  | case8 p rv v b l hp =>
    right
    refine ⟨rv, p, v, b, l, ?_, Or.inr (Or.inl (by omega))⟩
    rw [handleGetValueGo]
    simp [hp]

/-- C8 (amended): every TLV attribute walk terminates for every input buffer
and start offset (the walk functions are total), and each run ends either at
a record with branch 0, or after the read position has passed the end of the
buffer, or at a break the loop takes itself (a hard response code for the
Set-Response walk, a query match for the Get-Value walk), or with a decode
error when a record is truncated; a walk whose first record is a complete
branch-0 header terminates immediately with no error. -/
theorem tlv_walk_termination :
    (∀ (buf : List Nat) (p b l n : Nat),
       checkSetRespAttrsGo buf p b l n = none
       ∨ ∃ rv br lf ln fin, checkSetRespAttrsGo buf p b l n = some (rv, br, lf, ln, fin) ∧
           (br = 0 ∨ (rv = false ∧ 0x80 < ln) ∨ buf.length < fin))
  ∧ (∀ (buf : List Nat) (qB qL p : Nat) (rv : Bool) (v : TlvValue) (b l : Nat),
       handleGetValueGo buf qB qL p rv v b l = none
       ∨ ∃ rv2 fin v2 br lf,
           handleGetValueGo buf qB qL p rv v b l = some (rv2, fin, v2, br, lf) ∧
           (br = 0 ∨ buf.length < fin ∨
             (br ≠ 0xD6 ∧ ((qB = 0 ∧ qL = 0) ∨ (qB = br ∧ qL = lf)))))
  ∧ (∀ (a b : Nat) (rest : List Nat),
       checkSetRespAttrs (0 :: a :: b :: rest) 0 = some (true, 0, a * 0x100 + b, 0))
  ∧ (∀ (a b qB qL : Nat) (rest : List Nat),
       handleGetValue (0 :: a :: b :: rest) 0 qB qL =
         some (false, 0, .int 0, 0, a * 0x100 + b)) := by
  refine ⟨checkSetRespAttrsGo_trichotomy, handleGetValueGo_trichotomy, ?_, ?_⟩
  · intro a b rest
    rw [checkSetRespAttrs, checkSetRespAttrsGo]
    simp [readU8, readU16]
  · intro a b qB qL rest
    rw [handleGetValue, handleGetValueGo]
    simp [readU8, readU16]

/-- C8 counterexample: on the three-byte buffer [1, 0, 0] both walks read the
complete header of a record with branch 1 and then attempt to read the length
byte at offset 3, past the end of the buffer, so they end in a struct.error
rather than at a branch-0 record or by exhausting the buffer cleanly. -/
theorem tlv_walk_reads_past_end_cex :
    checkSetRespAttrs [1, 0, 0] 0 = none ∧ handleGetValue [1, 0, 0] 0 0 0 = none := by
  constructor
  · rw [checkSetRespAttrs, checkSetRespAttrsGo]
    simp [readU8, readU16]
  · rw [handleGetValue, handleGetValueGo]
    simp [readU8, readU16]

/-! ## The message-exchange engine (_message_exchange and the Set-Response
wait loop shared with update_flows_bulk) -/

/-- The exception kinds the wait loop's frame handling can raise:
struct.error from a short unpack_from, and ValueError from an incomplete
percent-format string. -/
inductive PyError where
  | structError
  | valueError
deriving DecidableEq, Repr

instance : DecidableEq (Except PyError Unit) := fun a b =>
  match a, b with
  | .ok (), .ok () => isTrue rfl
  | .error e1, .error e2 =>
    if h : e1 = e2 then isTrue (by rw [h]) else isFalse (by simp [h])
  | .ok _, .error _ => isFalse (by simp)
  | .error _, .ok _ => isFalse (by simp)

/-- _voltha_handle_omci: binds a local and logs; it always returns
normally. -/
def volthaHandleOmci (loadstr : List Nat) (startOfEvent : Nat) : Except PyError Unit :=
  .ok ()

/-- _voltha_handle_oam_event: unpack the seven-byte event header
(seq_num u16, tlv_type u8, ev_len u8, oui u8+u16) at startOfEvent, then log
the fields. A body with fewer than seven bytes past startOfEvent raises
struct.error in the unpack; otherwise the second log line formats tlv_type
with the incomplete pattern 0x% and raises ValueError before the tlv_type
and OUI dispatch below it is reached. Every call therefore raises. -/
def volthaHandleOamEvent (loadstr : List Nat) (startOfEvent : Nat) : Except PyError Unit :=
  match readU16 loadstr startOfEvent, readU8 loadstr (startOfEvent + 2),
        readU8 loadstr (startOfEvent + 3), readU8 loadstr (startOfEvent + 4),
        readU16 loadstr (startOfEvent + 5) with
  | some seq_num, some tlv_type, some ev_len, some oui_hi, some oui_lo =>
    .error .valueError
  | _, _, _, _, _ => .error .structError

/-- _voltha_check_resp, the unsolicited-frame handler of the wait loop: a
frame without a body is only logged; under opcode 0xFE the OUI is read
(struct.error when the body is shorter than three bytes) and an ITU OUI
dispatches to the OMCI handler while every other OUI is only logged; opcode
0x01 dispatches to the OAM event handler (which always raises); any other
opcode is only logged. -/
def volthaCheckResp (frame : Frame) : Except PyError Unit :=
  match frame.body with
  | none => .ok ()
  | some loadstr =>
    if frame.opcode = 0xFE then
      match readU8 loadstr 0, readU16 loadstr 1 with
      | some oui_hi, some oui_lo =>
        let oui := oui_hi * 0x10000 + oui_lo
        if oui = ITU_OUI then volthaHandleOmci loadstr 3
        else .ok ()
      | _, _ => .error .structError
    else if frame.opcode = 0x01 then volthaHandleOamEvent loadstr 0
    else .ok ()

/-- Result of running the wait loop of _message_exchange (lines 501 to 515,
duplicated in update_flows_bulk) against a finite sequence of inbound frames:
resolved gives the frames consumed by the unsolicited handler
_voltha_check_resp (in arrival order), the resolving frame, and the frames
left in the queue; blocked means the sequence ran out while the loop was
still waiting (the source blocks indefinitely); decodeError means the
classification of a frame raised struct.error; handlerError means an
exception escaped _voltha_check_resp and killed the exchange. -/
inductive WaitResult where
  | resolved (handled : List Frame) (frame : Frame) (rest : List Frame)
  | blocked (handled : List Frame)
  | decodeError (handled : List Frame)
  | handlerError (handled : List Frame) (e : PyError)
deriving DecidableEq, Repr

/-- The wait loop ("while not ack"): take the next frame, classify it with
_voltha_get_oam_msg_type, stop when the classification equals the expected
type (the source instantiates expected with DPoE Set Response at both call
sites), otherwise hand the frame to _voltha_check_resp — whose exceptions
propagate and end the exchange — and keep waiting. -/
def exchangeWaitLoop (expected : RxedOamMsgType) : List Frame → WaitResult
  | [] => .blocked []
  | f :: rest =>
    match getOamMsgType f with
    | none => .decodeError []
    | some t =>
      if t = expected then .resolved [] f rest
      else
        match volthaCheckResp f with
        | .error e => .handlerError [] e
        | .ok _ =>
          match exchangeWaitLoop expected rest with
          | .resolved h r q => .resolved (f :: h) r q
          | .blocked h => .blocked (f :: h)
          | .decodeError h => .decodeError (f :: h)
          | .handlerError h e => .handlerError (f :: h) e

/-- A DPoE or plain OAM event frame used in concrete exchanges. -/
def evFrame : Frame := ⟨0x01, some [0x00, 0x01, 0xFE, 0x08, 0x00, 0x10, 0x00]⟩

/-- A frame carrying an embedded OMCI message (ITU OUI). -/
def omciFrame : Frame := ⟨0xFE, some [0x00, 0x19, 0xA7, 0x00]⟩

/-- A Set-Response frame whose attribute list is just the branch-0 end
marker: a fully successful response. -/
def goodSetRespFrame : Frame := ⟨0xFE, some [0x2A, 0xEA, 0x15, 0x04, 0x00, 0x00, 0x00]⟩

/-- C6: the claimed dispatch discipline is broken by a slip in the
unsolicited handler. On the claim's own scenario [EventNotification,
OMCIMessage, SetResponse] with expected type SetResponse, the exchange does
not resolve on the third frame with the handler run twice: the handler
raises on the very first frame, because _voltha_handle_oam_event formats
its tlv_type log line with the incomplete pattern 0x% (ValueError, a slip
next to the correct 0x%04x and 0x%x lines) after a seven-byte header
unpack, and raises struct.error for shorter event bodies; the exchange
dies there. -/
theorem exchange_crashes_on_event_frame :
    getOamMsgType evFrame = some .EventNotification
  ∧ volthaCheckResp evFrame = .error .valueError
  ∧ volthaCheckResp ⟨0x01, some [0x00, 0x01]⟩ = .error .structError
  ∧ exchangeWaitLoop .SetResponse [evFrame, omciFrame, goodSetRespFrame] =
      .handlerError [] .valueError := by
  decide

/-! ## Outbound commands and the frame-level Set-Response check -/

/-- An EOAM TLV attached to an outbound request. MAC addresses are byte
lists (the source passes dotted string forms to scapy). -/
inductive DpoeAttribute where
  | deviceId
  | addStaticMacAddress (mac : List Nat)
deriving DecidableEq, Repr

/-- An outbound EOAMPayload: OUI layer, DPoE opcode layer and the attribute
layers stacked after them. -/
structure EOAMCommand where
  oui : Nat
  opcode : Nat
  attributes : List DpoeAttribute
deriving DecidableEq, Repr

def DPoEOpcode_GetRequest : Nat := 0x01
def DPoEOpcode_SetRequest : Nat := 0x03

/-- _voltha_check_set_resp: read the OUI and DPoE opcode of the frame and,
for a Set Response under the Cablelabs or Tibit OUI, run the attribute walk
from offset 4; every other shape only logs and returns the initial
(False, 0, 0, 0). none models struct.error. -/
def checkSetResp (frame : Frame) : Option (Bool × Nat × Nat × Nat) :=
  match frame.body with
  | none => some (false, 0, 0, 0)
  | some loadstr =>
    if frame.opcode = 0xFE then
      match readU8 loadstr 0, readU16 loadstr 1 with
      | some oui_hi, some oui_lo =>
        let oui := oui_hi * 0x10000 + oui_lo
        if oui = CABLELABS_OUI ∨ oui = TIBIT_OUI then
          match readU8 loadstr 3 with
          | some dpoeOpcode =>
            if dpoeOpcode = 0x04 then checkSetRespAttrs loadstr 4
            else some (false, 0, 0, 0)
          | none => none
        else some (false, 0, 0, 0)
      | _, _ => none
    else some (false, 0, 0, 0)

/-! ## The provisioning handshake (_message_exchange) and onboarding -/

/-- The Get-Request for the device identifier sent by step one of
_message_exchange. -/
def deviceIdGetRequest : EOAMCommand := ⟨TIBIT_OUI, DPoEOpcode_GetRequest, [.deviceId]⟩

/-- The Set-Request installing the default multicast query MAC address sent
by step two of _message_exchange. -/
def igmpQuerySetRequest : EOAMCommand :=
  ⟨TIBIT_OUI, DPoEOpcode_SetRequest,
   [.addStaticMacAddress [0x01, 0x00, 0x5e, 0x00, 0x00, 0x01]]⟩

/-- Step one of _message_exchange: send the DeviceId Get-Request, then take
the next frame from the queue with a bare incoming_messages.get(), without
checking its classification. Returns the sent command together with the
consumed frame and the remaining queue (none when no frame ever arrives). -/
def handshakeStepOne (queue : List Frame) : EOAMCommand × Option (Frame × List Frame) :=
  (deviceIdGetRequest,
   match queue with
   | [] => none
   | f :: rest => some (f, rest))

/-- Outcome of _message_exchange against the frames delivered after its
queue reset: the handshake either completes, carrying the decoded
Set-Response tuple that the source only logs, or blocks forever, or dies on
an exception (a struct.error in classification or decoding, or an exception
escaping the unsolicited handler). -/
inductive ExchangeOutcome where
  | completed (setResp : Bool × Nat × Nat × Nat)
  | blocked
  | raised (e : PyError)
deriving DecidableEq, Repr

/-- _message_exchange: consume one frame unconditionally (step one), then
send the multicast-query Set-Request and run the wait loop for a frame
classified as DPoE Set Response; decode that frame with
_voltha_check_set_resp. The decoded tuple is logged and returned; it does
not influence control flow. -/
def messageExchange (frames : List Frame) : ExchangeOutcome :=
  match (handshakeStepOne frames).2 with
  | none => .blocked
  | some (_, rest) =>
    match exchangeWaitLoop .SetResponse rest with
    | .resolved _ f _ =>
      match checkSetResp f with
      | some r => .completed r
      | none => .raised .structError
    | .blocked _ => .blocked
    | .decodeError _ => .raised .structError
    | .handlerError _ e => .raised e

/-- Device operational status values used by the activation path. FAILED is
included to state that the source never assigns it. -/
inductive OperStatus where
  | UNKNOWN
  | DISCOVERED
  | ACTIVATING
  | ACTIVE
  | FAILED
deriving DecidableEq, Repr

/-- The slice of the device record that _onu_device_activation reads and
writes: the parent reference and proxy address checked by its asserts (0
models a missing/falsy field) and the operational status. -/
structure Device where
  parent_id : Nat
  proxy_device_id : Nat
  proxy_channel_id : Nat
  oper_status : OperStatus
deriving DecidableEq, Repr

/-- _onu_device_activation: assert the parent and proxy linkage, populate
identity and ports (registry calls, not modelled here), run
_message_exchange, and then unconditionally set the operational status to
ACTIVE. none models an assertion failure or an activation that never
finishes (blocked exchange or struct.error). -/
def onuDeviceActivation (device : Device) (frames : List Frame) : Option Device :=
  if device.parent_id ≠ 0 ∧ device.proxy_device_id ≠ 0 ∧ device.proxy_channel_id ≠ 0 then
    match messageExchange frames with
    | .completed _ => some { device with oper_status := .ACTIVE }
    | _ => none
  else none

/-- A device satisfying the activation asserts. -/
def testDevice : Device := ⟨1, 1, 1, .ACTIVATING⟩

/-- A Set-Response frame whose first attribute record carries the hard
response code 0x86 (> 0x80): branch 1, leaf 1, length byte 0x86. -/
def hardFailSetRespFrame : Frame :=
  ⟨0xFE, some [0x2A, 0xEA, 0x15, 0x04, 0x01, 0x00, 0x01, 0x86]⟩

lemma checkSetResp_good : checkSetResp goodSetRespFrame = some (true, 0, 0, 0) := by
  rw [checkSetResp]
  simp only [goodSetRespFrame]
  norm_num [readU8, readU16, CABLELABS_OUI, TIBIT_OUI]
  rw [checkSetRespAttrs, checkSetRespAttrsGo]
  simp [readU8, readU16]

lemma checkSetResp_hardFail :
    checkSetResp hardFailSetRespFrame = some (false, 1, 1, 0x86) := by
  rw [checkSetResp]
  simp only [hardFailSetRespFrame]
  norm_num [readU8, readU16, CABLELABS_OUI, TIBIT_OUI]
  rw [checkSetRespAttrs, checkSetRespAttrsGo]
  simp [readU8, readU16]

/-- C1 counterexample: a handshake whose Set-Response decodes as a hard
failure (code 0x86 > 0x80, success flag false) still completes, and the
device is marked ACTIVE, not FAILED. -/
theorem hard_decode_failure_still_active_cex :
    checkSetResp hardFailSetRespFrame = some (false, 1, 1, 0x86)
  ∧ onuDeviceActivation testDevice [evFrame, hardFailSetRespFrame] =
      some { testDevice with oper_status := .ACTIVE } := by
  have hresp := checkSetResp_hardFail
  refine ⟨hresp, ?_⟩
  rw [onuDeviceActivation]
  have hcls : getOamMsgType hardFailSetRespFrame = some .SetResponse := by decide
  simp [testDevice, messageExchange, handshakeStepOne, exchangeWaitLoop, hcls, hresp]

/-- C1 (amended): the Set-Response decode outcome of the handshake does not
influence onboarding: whenever the asserts pass and the exchange completes
(with any decode outcome, hard failure included), the device is marked
ACTIVE; the activation path never assigns FAILED. -/
theorem activation_active_regardless_of_set_resp_outcome :
    (∀ (device : Device) (frames : List Frame) (r : Bool × Nat × Nat × Nat),
       device.parent_id ≠ 0 → device.proxy_device_id ≠ 0 → device.proxy_channel_id ≠ 0 →
       messageExchange frames = .completed r →
       onuDeviceActivation device frames = some { device with oper_status := .ACTIVE })
  ∧ (∀ (device d : Device) (frames : List Frame),
       onuDeviceActivation device frames = some d → d.oper_status = .ACTIVE) := by
  constructor
  · intro device frames r h1 h2 h3 hex
    rw [onuDeviceActivation]
    simp [h1, h2, h3, hex]
  · intro device d frames h
    rw [onuDeviceActivation] at h
    split at h
    · split at h <;> first | (cases h; rfl) | simp at h
    · simp at h

/-- C1 witness: the amended theorem applied to the concrete hard-failure
handshake. -/
theorem activation_active_regardless_of_set_resp_outcome_witness :
    onuDeviceActivation testDevice [evFrame, hardFailSetRespFrame] =
      some { testDevice with oper_status := .ACTIVE }
  ∧ ({ testDevice with oper_status := OperStatus.ACTIVE } : Device).oper_status =
      OperStatus.ACTIVE := by
  have hex : messageExchange [evFrame, hardFailSetRespFrame] =
      .completed (false, 1, 1, 0x86) := by
    have hresp := checkSetResp_hardFail
    have hcls : getOamMsgType hardFailSetRespFrame = some .SetResponse := by decide
    simp [messageExchange, handshakeStepOne, exchangeWaitLoop, hcls, hresp]
  have h1 := activation_active_regardless_of_set_resp_outcome.1 testDevice
    [evFrame, hardFailSetRespFrame] (false, 1, 1, 0x86)
    (by decide) (by decide) (by decide) hex
  exact ⟨h1, activation_active_regardless_of_set_resp_outcome.2 testDevice
    { testDevice with oper_status := .ACTIVE } [evFrame, hardFailSetRespFrame] h1⟩

/-- C7 counterexample: step one of the handshake is completed by a frame
classified as EventNotification, not Get-Response, and the whole handshake
completes without any Get-Response ever arriving. -/
theorem step_one_completes_without_get_response_cex :
    getOamMsgType evFrame = some .EventNotification
  ∧ (handshakeStepOne [evFrame]).2 = some (evFrame, [])
  ∧ messageExchange [evFrame, goodSetRespFrame] = .completed (true, 0, 0, 0) := by
  refine ⟨by decide, by decide, ?_⟩
  have hresp := checkSetResp_good
  have hcls : getOamMsgType goodSetRespFrame = some .SetResponse := by decide
  simp [messageExchange, handshakeStepOne, exchangeWaitLoop, hcls, hresp]

/-- C7 (amended): step one of the handshake sends the DeviceId Get-Request
and then consumes the next inbound frame unconditionally: any frame, of any
classification, completes the step, and the step blocks only when no frame
arrives at all. -/
theorem handshake_step_one_takes_next_frame :
    (∀ (f : Frame) (rest : List Frame), (handshakeStepOne (f :: rest)).2 = some (f, rest))
  ∧ (handshakeStepOne []).2 = none
  ∧ (∀ queue : List Frame, (handshakeStepOne queue).1 = deviceIdGetRequest) := by
  refine ⟨fun f rest => rfl, rfl, fun queue => rfl⟩

/-! ## The flow translator (update_flows_bulk) -/

/-- One OpenFlow basic match field of a flow, as dispatched on field.type in
update_flows_bulk; other covers every field type outside the supported set,
carrying the numeric type for the NotImplementedError message. -/
inductive OfbField where
  | ethType (v : Nat)
  | ipProto (v : Nat)
  | inPort (v : Nat)
  | vlanVid (v : Nat)
  | vlanPcp (v : Nat)
  | udpDst (v : Nat)
  | ipv4Dst (v : Nat)
  | other (t : Nat)
deriving DecidableEq, Repr

/-- One flow action, as dispatched on action.type; setField keeps the
oxm_class assert outcome (oxmBasic) and the targeted sub-field type; other
covers every action type outside the supported set. -/
inductive FlowAction where
  | output (port : Nat)
  | popVlan
  | pushVlan (ethertype : Nat)
  | setField (oxmBasic : Bool) (fieldType : Nat)
  | other (t : Nat)
deriving DecidableEq, Repr

/-- The exceptions update_flows_bulk can raise: the groups assert, the
in_port assert, NotImplementedError for an unsupported match field, the
oxm_class assert inside SET_FIELD, the port-convention exception, and a
struct.error while decoding a Set Response. -/
inductive FlowError where
  | groupsNotEmpty
  | noInPort
  | unsupportedField (t : Nat)
  | assertOxmClass
  | badPort (p : Nat)
  | decodeError
  | handlerError (e : PyError)
deriving DecidableEq, Repr

/-- The slice of an OpenFlow flow entry that update_flows_bulk reads:
priority, the get_in_port result, and the ordered match fields and
actions. -/
structure Flow where
  priority : Nat
  inPort : Option Nat
  fields : List OfbField
  actions : List FlowAction
deriving DecidableEq, Repr

/-- The precedence computed (and then never used) at the top of the per-flow
loop: 255 - min(priority / 256, 255). -/
def precedence (priority : Nat) : Nat := 255 - min (priority / 256) 255

/-- The octet extractions int(hex(_ipv4_dst)[2:4], 16), [4:6], [6:8] and
[8:], written arithmetically; for an address with a full eight-digit hex
form (0x10000000 ≤ v < 0x100000000, which holds for every multicast
address) the four slices are exactly the big-endian octets. -/
def ipOctetA (v : Nat) : Nat := v / 0x1000000
def ipOctetB (v : Nat) : Nat := v / 0x10000 % 0x100
def ipOctetC (v : Nat) : Nat := v / 0x100 % 0x100
def ipOctetD (v : Nat) : Nat := v % 0x100

/-- Modelled from the spec: mcastIp2McastMac is imported from
voltha.extensions.eoam.EOAM, a module that is not part of this source
snapshot. Per the spec it is the standard IPv4-multicast-to-Ethernet
mapping: the low 23 bits of the IPv4 address placed into the low 23 bits of
01:00:5e:00:00:00, here applied to the dotted-quad octets a.b.c.d the
source formats into the argument string. -/
def mcastIp2McastMac (a b c d : Nat) : List Nat :=
  [0x01, 0x00, 0x5e, b % 0x80, c, d]

/-- The spec's multicast MAC mapping stated directly on the 32-bit address,
for comparison with what the code path emits: low 23 address bits into the
low 23 bits of 01:00:5e:00:00:00. -/
def specMulticastMac (v : Nat) : List Nat :=
  [0x01, 0x00, 0x5e, v / 0x10000 % 0x80, v / 0x100 % 0x100, v % 0x100]

/-- Upstream (in_port == 2) match-field loop: every supported field only
binds a local and logs; a field outside the supported set raises
NotImplementedError. -/
def processUpFields : List OfbField → Option FlowError
  | [] => none
  | fld :: rest =>
    match fld with
    | .other t => some (.unsupportedField t)
    | _ => processUpFields rest

/-- Action loop (identical in the upstream and downstream arms): OUTPUT and
POP_VLAN log; PUSH_VLAN logs an error for a TPID other than 0x8100 but
continues; SET_FIELD asserts the oxm_class and then logs an error for a
target other than VLAN_VID but continues; an action type outside the
supported set logs UNSUPPORTED-ACTION-TYPE and continues. Only the assert
can abort. -/
def processActions : List FlowAction → Option FlowError
  | [] => none
  | act :: rest =>
    match act with
    | .output _ => processActions rest
    | .popVlan => processActions rest
    | .pushVlan _ => processActions rest
    | .setField oxmBasic _ => if oxmBasic then processActions rest else some .assertOxmClass
    | .other _ => processActions rest

/-- Result of processing a bulk flow update: done carries the commands sent
(in order) and the frames left in the shared queue; failed carries the
raised exception and the commands already sent when it was raised (they
stay sent); blocked means a downstream rule is still waiting for its Set
Response. -/
inductive BulkOutcome where
  | done (sent : List EOAMCommand) (queue : List Frame)
  | failed (e : FlowError) (sent : List EOAMCommand)
  | blocked (sent : List EOAMCommand)
deriving DecidableEq, Repr

/-- Downstream (in_port == 1) match-field loop: supported fields log; an
IPV4_DST field builds the AddStaticMacAddress Set-Request from the
multicast MAC mapping of its dotted-quad form, sends it, and then blocks in
the Set-Response wait loop before continuing with the remaining fields; a
field outside the supported set raises NotImplementedError. -/
def processDnFields : List OfbField → List EOAMCommand → List Frame → BulkOutcome
  | [], sent, queue => .done sent queue
  | fld :: rest, sent, queue =>
    match fld with
    | .ipv4Dst v =>
      let cmd : EOAMCommand :=
        ⟨TIBIT_OUI, DPoEOpcode_SetRequest,
         [.addStaticMacAddress
            (mcastIp2McastMac (ipOctetA v) (ipOctetB v) (ipOctetC v) (ipOctetD v))]⟩
      match exchangeWaitLoop .SetResponse queue with
      | .resolved _ f q =>
        match checkSetResp f with
        | some _ => processDnFields rest (sent ++ [cmd]) q
        | none => .failed .decodeError (sent ++ [cmd])
      | .blocked _ => .blocked (sent ++ [cmd])
      | .decodeError _ => .failed .decodeError (sent ++ [cmd])
      | .handlerError _ e => .failed (.handlerError e) (sent ++ [cmd])
    | .other t => .failed (.unsupportedField t) sent
    | _ => processDnFields rest sent queue

/-- One iteration of the per-flow loop of update_flows_bulk: dispatch on the
in_port (2 upstream, 1 downstream, anything else raises), run the field
loop and then the action loop. -/
def processFlow (flow : Flow) (sent : List EOAMCommand) (queue : List Frame) : BulkOutcome :=
  match flow.inPort with
  | none => .failed .noInPort sent
  | some p =>
    if p = 2 then
      match processUpFields flow.fields with
      | some e => .failed e sent
      | none =>
        match processActions flow.actions with
        | some e => .failed e sent
        | none => .done sent queue
    else if p = 1 then
      match processDnFields flow.fields sent queue with
      | .done sent2 q =>
        match processActions flow.actions with
        | some e => .failed e sent2
        | none => .done sent2 q
      | r => r
    else .failed (.badPort p) sent

/-- The flow loop: process the flows in order; the first exception aborts the
whole call, leaving already-sent commands sent. -/
def processFlows : List Flow → List EOAMCommand → List Frame → BulkOutcome
  | [], sent, queue => .done sent queue
  | flow :: rest, sent, queue =>
    match processFlow flow sent queue with
    | .done sent2 q => processFlows rest sent2 q
    | r => r

/-- update_flows_bulk: assert that there are no group entries, then run the
flow loop against the shared incoming-message queue. -/
def updateFlowsBulk (groupsCount : Nat) (flows : List Flow) (queue : List Frame) : BulkOutcome :=
  if groupsCount = 0 then processFlows flows [] queue
  else .failed .groupsNotEmpty []

/-- Fields the downstream loop only logs, neither sending a command nor
raising: every supported field other than IPV4_DST. -/
def dnFieldSilent : OfbField → Bool
  | .ethType _ => true
  | .ipProto _ => true
  | .inPort _ => true
  | .vlanVid _ => true
  | .vlanPcp _ => true
  | .udpDst _ => true
  | _ => false

/-- Fields inside the supported set of the match-field loops. -/
def fieldSupported : OfbField → Bool
  | .other _ => false
  | _ => true

lemma processDnFields_skip_silent (pre : List OfbField) :
    ∀ (rest : List OfbField) (sent : List EOAMCommand) (q : List Frame),
      (∀ fld ∈ pre, dnFieldSilent fld = true) →
      processDnFields (pre ++ rest) sent q = processDnFields rest sent q := by
  induction pre with
  | nil => intro rest sent q h; rfl
  | cons fld pre2 ih =>
    intro rest sent q h
    have hf := h fld (by simp)
    have h2 : ∀ g ∈ pre2, dnFieldSilent g = true := fun g hg => h g (by simp [hg])
    cases fld <;> simp_all [processDnFields, dnFieldSilent, ih]

lemma processUpFields_skip_supported (pre : List OfbField) :
    ∀ rest : List OfbField,
      (∀ fld ∈ pre, fieldSupported fld = true) →
      processUpFields (pre ++ rest) = processUpFields rest := by
  induction pre with
  | nil => intro rest h; rfl
  | cons fld pre2 ih =>
    intro rest h
    have hf := h fld (by simp)
    have h2 : ∀ g ∈ pre2, fieldSupported g = true := fun g hg => h g (by simp [hg])
    cases fld <;> simp_all [processUpFields, fieldSupported, ih]

lemma processDnFields_silent (fs : List OfbField) (sent : List EOAMCommand)
    (q : List Frame) (h : ∀ fld ∈ fs, dnFieldSilent fld = true) :
    processDnFields fs sent q = .done sent q := by
  have h2 := processDnFields_skip_silent fs [] sent q h
  simpa [processDnFields] using h2

lemma mcastMac_eq_spec (v : Nat) :
    mcastIp2McastMac (ipOctetA v) (ipOctetB v) (ipOctetC v) (ipOctetD v) =
      specMulticastMac v := by
  simp only [mcastIp2McastMac, specMulticastMac, ipOctetB, ipOctetC, ipOctetD]
  have h : v / 0x10000 % 0x100 % 0x80 = v / 0x10000 % 0x80 :=
    Nat.mod_mod_of_dvd _ (by norm_num)
  rw [h]

/-- C4: a downstream flow rule (ingress port 1) whose match holds one IPv4
destination that is a multicast address makes the translator send exactly
one DPoE Set-Request carrying an AddStaticMacAddress attribute whose MAC is
the standard IPv4-multicast-to-Ethernet mapping of the address; destination
239.1.2.3 yields MAC 01:00:5e:01:02:03. -/
theorem downstream_multicast_emits_one_add_static_mac :
    (∀ (prio v : Nat) (pre post : List OfbField) (acts : List FlowAction)
       (queue handled rest : List Frame) (f : Frame) (r : Bool × Nat × Nat × Nat),
       (∀ fld ∈ pre, dnFieldSilent fld = true) →
       (∀ fld ∈ post, dnFieldSilent fld = true) →
       0xE0000000 ≤ v → v < 0xF0000000 →
       processActions acts = none →
       exchangeWaitLoop .SetResponse queue = .resolved handled f rest →
       checkSetResp f = some r →
       updateFlowsBulk 0 [⟨prio, some 1, pre ++ .ipv4Dst v :: post, acts⟩] queue =
         .done [⟨TIBIT_OUI, DPoEOpcode_SetRequest,
                 [.addStaticMacAddress (specMulticastMac v)]⟩] rest)
  ∧ specMulticastMac 0xEF010203 = [0x01, 0x00, 0x5e, 0x01, 0x02, 0x03] := by
  constructor
  · intro prio v pre post acts queue handled rest f r hpre hpost hlo hhi hacts hq hresp
    rw [updateFlowsBulk]
    simp only [if_pos rfl, processFlows, processFlow]
    norm_num
    rw [processDnFields_skip_silent pre _ _ _ hpre]
    rw [processDnFields]
    simp only [hq, hresp, mcastMac_eq_spec, List.nil_append]
    rw [processDnFields_silent post _ _ hpost]
    simp [processFlows, hacts]
  · rfl

/-- C4 witness: the concrete downstream rule matching 239.1.2.3. -/
theorem downstream_multicast_emits_one_add_static_mac_witness :
    updateFlowsBulk 0 [⟨0, some 1, [.ipv4Dst 0xEF010203], []⟩] [goodSetRespFrame] =
      .done [⟨TIBIT_OUI, DPoEOpcode_SetRequest,
              [.addStaticMacAddress [0x01, 0x00, 0x5e, 0x01, 0x02, 0x03]]⟩] [] := by
  have h := downstream_multicast_emits_one_add_static_mac.1 0 0xEF010203 [] [] []
    [goodSetRespFrame] [] [] goodSetRespFrame (true, 0, 0, 0)
    (by simp) (by simp) (by norm_num) (by norm_num) rfl
    (by have : getOamMsgType goodSetRespFrame = some .SetResponse := by decide
        simp [exchangeWaitLoop, this])
    checkSetResp_good
  rw [show ([] : List OfbField) ++ OfbField.ipv4Dst 0xEF010203 :: [] =
        [OfbField.ipv4Dst 0xEF010203] from rfl] at h
  rw [h, downstream_multicast_emits_one_add_static_mac.2]

/-- C5 counterexample: a flow whose action list contains the unsupported
action type 0x99 is not rejected: the bulk update completes without error,
so an unsupported action kind is not fatal to the rule. -/
theorem unsupported_action_not_fatal_cex :
    updateFlowsBulk 0 [⟨0, some 2, [.ethType 0x800], [.other 0x99]⟩] [] = .done [] [] := by
  decide

/-- C5 (amended): a match field outside the supported set raises
NotImplementedError and is fatal to the rule, in both the upstream and the
downstream arm; an action kind outside the supported set, a SET_FIELD on a
target other than VLAN_VID, and a PUSH_VLAN with a TPID other than 0x8100,
are only logged: processing continues exactly as without them. -/
theorem flow_rule_unsupported_input_handling :
    (∀ (pre post : List OfbField) (t : Nat),
       (∀ fld ∈ pre, fieldSupported fld = true) →
       processUpFields (pre ++ .other t :: post) = some (.unsupportedField t))
  ∧ (∀ (pre post : List OfbField) (t : Nat) (sent : List EOAMCommand) (q : List Frame),
       (∀ fld ∈ pre, dnFieldSilent fld = true) →
       processDnFields (pre ++ .other t :: post) sent q = .failed (.unsupportedField t) sent)
  ∧ (∀ (t : Nat) (rest : List FlowAction),
       processActions (.other t :: rest) = processActions rest)
  ∧ (∀ (ft : Nat) (rest : List FlowAction),
       processActions (.setField true ft :: rest) = processActions rest)
  ∧ (∀ (tpid : Nat) (rest : List FlowAction),
       processActions (.pushVlan tpid :: rest) = processActions rest) := by
  refine ⟨?_, ?_, fun t rest => rfl, fun ft rest => by simp [processActions],
          fun tpid rest => rfl⟩
  · intro pre post t hpre
    rw [processUpFields_skip_supported pre _ hpre]
    rfl
  · intro pre post t sent q hpre
    rw [processDnFields_skip_silent pre _ _ _ hpre]
    rfl

/-- C5 witness: concrete unsupported-field and logged-only-action cases. -/
theorem flow_rule_unsupported_input_handling_witness :
    processUpFields [.ethType 0x800, .other 5] = some (.unsupportedField 5)
  ∧ processDnFields [.vlanVid 7, .other 6] [] [] = .failed (.unsupportedField 6) []
  ∧ processActions [.other 0x99] = processActions []
  ∧ processActions [.setField true 0x1234] = processActions []
  ∧ processActions [.pushVlan 0x88A8] = processActions [] := by
  refine ⟨?_, ?_,
    flow_rule_unsupported_input_handling.2.2.1 0x99 [],
    flow_rule_unsupported_input_handling.2.2.2.1 0x1234 [],
    flow_rule_unsupported_input_handling.2.2.2.2 0x88A8 []⟩
  · exact flow_rule_unsupported_input_handling.1 [.ethType 0x800] [] 5 (by decide)
  · exact flow_rule_unsupported_input_handling.2.1 [.vlanVid 7] [] 6 [] [] (by decide)

lemma processFlows_append_fail (fs : List Flow) :
    ∀ (post : List Flow) (sent : List EOAMCommand) (q : List Frame)
      (e : FlowError) (s : List EOAMCommand),
      processFlows fs sent q = .failed e s →
      processFlows (fs ++ post) sent q = .failed e s := by
  induction fs with
  | nil => intro post sent q e s h; exact absurd h (by simp [processFlows])
  | cons flow fs2 ih =>
    intro post sent q e s h
    rw [processFlows] at h
    rw [List.cons_append, processFlows]
    cases hf : processFlow flow sent q with
    | done sent2 q2 =>
      simp only [hf] at h ⊢
      exact ih post _ _ e s h
    | failed e2 s2 =>
      simp only [hf] at h ⊢
      exact h
    | blocked s2 =>
      simp only [hf] at h ⊢
      exact h

/-- C10: a bulk update containing any group entry fails its assert up front,
before any flow is processed or any command sent; and the first flow that
raises (for example on an unsupported match field) aborts the call at that
point: flows after it in the batch are neither validated nor translated
(they cannot change the outcome), while commands already sent for earlier
flows stay sent (they are carried in the failure outcome, no rollback). -/
theorem bulk_update_abort_semantics :
    (∀ (g : Nat) (flows : List Flow) (q : List Frame),
       g ≠ 0 → updateFlowsBulk g flows q = .failed .groupsNotEmpty [])
  ∧ (∀ (pre : List Flow) (bad : Flow) (post : List Flow) (q : List Frame)
       (e : FlowError) (sent : List EOAMCommand),
       updateFlowsBulk 0 (pre ++ [bad]) q = .failed e sent →
       updateFlowsBulk 0 (pre ++ bad :: post) q = .failed e sent) := by
  constructor
  · intro g flows q hg
    rw [updateFlowsBulk]
    simp [hg]
  · intro pre bad post q e sent h
    rw [updateFlowsBulk] at h ⊢
    simp only [if_pos rfl] at h ⊢
    have := processFlows_append_fail (pre ++ [bad]) post [] q e sent h
    simpa using this

/-- C10 witness: the second flow of a three-flow batch has an unsupported
match field; the call fails with that field's error while the command
already sent for the first (downstream multicast) flow stays sent, and the
third flow never changes the outcome. -/
theorem bulk_update_abort_semantics_witness :
    updateFlowsBulk 1 [⟨0, some 2, [], []⟩] [] = .failed .groupsNotEmpty []
  ∧ updateFlowsBulk 0
      [⟨0, some 1, [.ipv4Dst 0xEF010203], []⟩,
       ⟨0, some 2, [.other 7], []⟩,
       ⟨0, some 2, [], []⟩] [goodSetRespFrame] =
      .failed (.unsupportedField 7)
        [⟨TIBIT_OUI, DPoEOpcode_SetRequest,
          [.addStaticMacAddress [0x01, 0x00, 0x5e, 0x01, 0x02, 0x03]]⟩] := by
  refine ⟨bulk_update_abort_semantics.1 1 [⟨0, some 2, [], []⟩] [] (by decide), ?_⟩
  have hcls : getOamMsgType goodSetRespFrame = some .SetResponse := by decide
  have hpre : updateFlowsBulk 0
      [⟨0, some 1, [.ipv4Dst 0xEF010203], []⟩, ⟨0, some 2, [.other 7], []⟩]
      [goodSetRespFrame] =
      .failed (.unsupportedField 7)
        [⟨TIBIT_OUI, DPoEOpcode_SetRequest,
          [.addStaticMacAddress [0x01, 0x00, 0x5e, 0x01, 0x02, 0x03]]⟩] := by
    rw [updateFlowsBulk]
    simp only [if_pos rfl, processFlows, processFlow, processDnFields]
    norm_num [exchangeWaitLoop, hcls, checkSetResp_good]
    simp [processDnFields, processActions, processFlows, processFlow, processUpFields,
          mcastIp2McastMac, ipOctetA, ipOctetB, ipOctetC, ipOctetD]
  exact bulk_update_abort_semantics.2
    [⟨0, some 1, [.ipv4Dst 0xEF010203], []⟩] ⟨0, some 2, [.other 7], []⟩
    [⟨0, some 2, [], []⟩] [goodSetRespFrame] (.unsupportedField 7) _ hpre

/-! ## The inbound frame queue (TibitOnuAdapter.__init__ and
receive_proxied_message) -/

/-- A proxy address: the parent device id and the channel id used to route
frames for one ONU. -/
structure ProxyAddress where
  device_id : Nat
  channel_id : Nat
deriving DecidableEq, Repr

/-- The adapter-level state relevant to frame delivery: the single
DeferredQueue created once in TibitOnuAdapter.__init__ and shared by every
device the adapter manages. -/
structure AdapterState where
  incoming_messages : List Frame
deriving DecidableEq, Repr

/-- The queue as it stands right after TibitOnuAdapter.__init__. -/
def initialAdapterState : AdapterState := ⟨[]⟩

/-- receive_proxied_message: log and put the message on the adapter's
incoming_messages queue; the proxy address is only logged and plays no part
in where the frame is stored. -/
def receiveProxiedMessage (st : AdapterState) (proxy_address : ProxyAddress)
    (msg : Frame) : AdapterState :=
  { st with incoming_messages := st.incoming_messages ++ [msg] }

/-- incoming_messages.get(), as performed by any exchange loop running on
this adapter: take the oldest frame of the shared queue. -/
def incomingMessagesGet (st : AdapterState) : Option (Frame × AdapterState) :=
  match st.incoming_messages with
  | [] => none
  | f :: rest => some (f, ⟨rest⟩)

/-- C9 counterexample: two distinct proxy addresses; a frame received for
the first lands in exactly the same adapter state, and hence the same
queue, as it would if it had been received for the second, and a single
get, no matter which device's exchange loop performs it, consumes it. The
inbound stream is adapter-global, not per-device. -/
theorem cross_device_frame_delivery_cex :
    (⟨1, 1⟩ : ProxyAddress) ≠ ⟨2, 2⟩
  ∧ receiveProxiedMessage initialAdapterState ⟨1, 1⟩ evFrame =
      receiveProxiedMessage initialAdapterState ⟨2, 2⟩ evFrame
  ∧ incomingMessagesGet (receiveProxiedMessage initialAdapterState ⟨1, 1⟩ evFrame) =
      some (evFrame, initialAdapterState) := by
  refine ⟨by decide, rfl, by decide⟩

/-- C9 (amended): the adapter keeps one shared FIFO queue for all its
devices: receive_proxied_message appends every frame to that queue
regardless of the proxy address it arrived for, order is preserved, and a
get by any exchange loop takes the oldest frame of the shared queue, so a
frame received for one device can be consumed by another device's
exchange. -/
theorem shared_incoming_queue_semantics :
    (∀ (st : AdapterState) (p1 p2 : ProxyAddress) (m : Frame),
       receiveProxiedMessage st p1 m = receiveProxiedMessage st p2 m)
  ∧ (∀ (st : AdapterState) (p : ProxyAddress) (m : Frame),
       (receiveProxiedMessage st p m).incoming_messages = st.incoming_messages ++ [m])
  ∧ (∀ (f : Frame) (rest : List Frame),
       incomingMessagesGet ⟨f :: rest⟩ = some (f, ⟨rest⟩))
  ∧ incomingMessagesGet initialAdapterState = none := by
  exact ⟨fun st p1 p2 m => rfl, fun st p m => rfl, fun f rest => rfl, rfl⟩

end TibitOnu
